import Mathlib

/-!
Verification of the Vizier source-routing, sourcing and report-writing pipeline.

The Python modules under `backend/processes` are shallowly embedded:

* `backend/processes/connectors/router_04.py` (`Router0_4`): source reranking,
  thematic clustering and agent assignment;
* `backend/processes/sourcing/agent.py` (`SourceAgent`): clarification answering;
* `backend/processes/sourcing/director.py` (`SourceDirector`): request routing
  and per-agent bookkeeping;
* `backend/processes/report/writer.py` (`Writer`): the evaluate/revise loop of
  `generate_draft`.

Python dictionaries are modelled as insertion-ordered association lists over
`String` keys, Python floats as `ℚ`, and `datetime` values as abstract rational
clock readings supplied by the caller.  Python `set` objects are enumerated in
an order determined by the per-process string hash seed; a concrete process is
modelled by an arbitrary duplicate-removing enumeration (`IsPySetEnum` below),
of which `pyDedup` (first-occurrence order) is the canonical example.  Calls to
the LLM completion service are modelled by oracle functions supplied as
arguments.
-/

set_option allowUnsafeReducibility true
attribute [semireducible] Rat.add Rat.mul Rat.sub

namespace Vizier

/-! ## Python collection primitives -/

/-- Python `str.lower()`, character by character (all strings involved are
ASCII). -/
def pyLower (s : String) : String :=
  ⟨s.data.map Char.toLower⟩

/-- Accumulator loop of `pyWords`: split a character stream on whitespace
runs, dropping empty fragments. -/
def pyWordsAux : List Char → List Char → List String
  | [], acc => if acc.isEmpty then [] else [⟨acc.reverse⟩]
  | c :: cs, acc =>
    if c.isWhitespace then
      if acc.isEmpty then pyWordsAux cs [] else ⟨acc.reverse⟩ :: pyWordsAux cs []
    else pyWordsAux cs (c :: acc)

/-- Python `str.split()` with no argument: split on runs of whitespace,
dropping empty fragments. -/
def pyWords (s : String) : List String :=
  pyWordsAux s.data []

/-- Python substring test `needle in hay` on strings (the empty needle is
contained in everything). -/
def pySubstr (needle hay : String) : Bool :=
  decide (needle.data <:+: hay.data)

/-- Python association-list lookup: `d[k]` / `d.get(k)` on an
insertion-ordered dictionary, returning the first binding of `k`. -/
def pyLookup (k : String) : List (String × α) → Option α
  | [] => none
  | p :: ps => if p.1 = k then some p.2 else pyLookup k ps

/-- Keys of an association list, in insertion order (Python `dict.keys()`). -/
def pyKeys (l : List (String × α)) : List String :=
  l.map Prod.fst

/-- Python `d[k] = v`: overwrite in place if the key is present (keeping its
position), otherwise append the new binding. -/
def pyInsert (k : String) (v : α) (l : List (String × α)) : List (String × α) :=
  if k ∈ pyKeys l then l.map (fun p => if p.1 = k then (k, v) else p)
  else l ++ [(k, v)]

/-- Update the value bound to `k` in place, if present (Python
`d[k].field = ...` mutation on an entry known to exist). -/
def pyUpdate (k : String) (f : α → α) (l : List (String × α)) : List (String × α) :=
  l.map (fun p => if p.1 = k then (p.1, f p.2) else p)

/-- Python `{**a, **b}`: the keys of `a` in order (values overridden by `b`
where present), followed by the keys of `b` not in `a`, in order. -/
def pyMerge (a b : List (String × α)) : List (String × α) :=
  a.map (fun p => match pyLookup p.1 b with
    | some v => (p.1, v)
    | none => p)
  ++ b.filter (fun p => ¬ p.1 ∈ pyKeys a)

/-- Duplicate-removing enumeration keeping the first occurrence of each
element; this is the insertion order of a Python `dict` / `Counter` built from
the list, and one possible enumeration order of a Python `set`. -/
def pyDedup (l : List String) : List String :=
  l.foldl (fun acc x => if x ∈ acc then acc else acc ++ [x]) []

/-- Another possible `set` enumeration: first occurrences, reversed. -/
def pyDedupRev (l : List String) : List String :=
  (pyDedup l).reverse

/-- A valid model of Python `list(set(l))` within one process: a duplicate-free
enumeration of the elements of `l`.  Which enumeration a concrete process uses
depends on the randomized string hash seed. -/
def IsPySetEnum (d : List String → List String) : Prop :=
  ∀ l, (d l).Nodup ∧ ∀ a, a ∈ d l ↔ a ∈ l

/-- Stable descending sort by a rational key: Python
`sorted(l, key=key, reverse=True)`.  `List.insertionSort` with the relation
`key b ≤ key a` inserts earlier elements in front of later elements with an
equal key, which is exactly the stable tie-break of Python sorting. -/
def pySortDesc (key : α → ℚ) (l : List α) : List α :=
  l.insertionSort (fun a b => key b ≤ key a)

/-- First element of an association list attaining the minimal value: Python
`min(d.items(), key=lambda x: x[1])`. -/
def pyArgminFirst : List (String × ℕ) → String × ℕ
  | [] => ("", 0)
  | [p] => p
  | p :: q :: ps =>
    let r := pyArgminFirst (q :: ps)
    if p.2 ≤ r.2 then p else r

/-- Result of running a Python callable: an ordinary `return` or a propagating
exception carrying its message. -/
inductive PyResult (α : Type) where
  | returned (val : α)
  | raised (msg : String)
deriving DecidableEq, Repr

/-! ## Router0_4 (`backend/processes/connectors/router_04.py`)

Data model for cleaned sources.  Scores that are Python floats are modelled as
rationals. -/

inductive SourceType where
  | web | twitter | academic | news | blog | forum | other
deriving DecidableEq, Repr

inductive SourceRelevance where
  | high | medium | low | irrelevant
deriving DecidableEq, Repr

structure SourceMetadata where
  source_id : String
  source_type : SourceType
  url : Option String := none
  title : Option String := none
  author : Option String := none
  publication_date : Option String := none
  retrieved_date : String := ""
  relevance_score : ℚ := 0
  quality_score : ℚ
  content_snippet : Option String := none
deriving DecidableEq, Repr

structure CleanedSource where
  metadata : SourceMetadata
  content : String := ""
  keywords : List String
  relevance : SourceRelevance
deriving DecidableEq, Repr

/-- `SourceAgent` record produced by `Router0_4.assign_source_agents` (the
pydantic model `SourceAgent` of `router_04.py`; distinct from the stateful
`SourceAgent` class of `sourcing/agent.py` embedded further below). -/
structure RouterSourceAgent where
  agent_id : String
  assigned_sources : List String
  source_types : List SourceType
  priority : ℕ
deriving DecidableEq, Repr

/-- Constructor state of a `Router0_4` instance: the two cleaned source
dictionaries, the quality threshold, and the only entry of `user_context`
consulted by the ranking pipeline (`user_context.get("refined_query", "")`). -/
structure Router04 where
  cleaned_web_sources : List (String × CleanedSource)
  cleaned_twitter_sources : List (String × CleanedSource)
  refined_query : String := ""
  quality_threshold : ℚ := mkRat 6 10
deriving DecidableEq, Repr

namespace Router04

/-- Title words kept by `_extract_thematic_keywords`: lowered words of length
greater than 3 that are not "the", "and" or "for". -/
def titleWords (title : String) : List String :=
  ((pyWords title).filter
    (fun w => 3 < w.length ∧ ¬ pyLower w ∈ ["the", "and", "for"])).map pyLower

/-- Snippet words kept by `_extract_thematic_keywords`: lowered words of length
greater than 4 outside the stop list. -/
def snippetWords (snippet : String) : List String :=
  ((pyWords snippet).filter
    (fun w => 4 < w.length ∧ ¬ pyLower w ∈ ["the", "and", "for", "that", "with"])).map
    pyLower

/-- Python `Counter(l).most_common(n)` keys: distinct elements in first
occurrence order, stably sorted by descending multiplicity, truncated to `n`.
`Counter` is a dictionary, so its iteration order is first-occurrence order and
does not depend on the hash seed. -/
def pyMostCommon (n : ℕ) (l : List String) : List String :=
  (pySortDesc (fun w => mkRat (l.count w) 1) (pyDedup l)).take n

/-- Keyword pool assembled by `_extract_thematic_keywords` before the final
`list(set(...))[:10]`: own keywords, then title words, then the five most
frequent snippet words. -/
def keywordPool (s : CleanedSource) : List String :=
  s.keywords
    ++ (match s.metadata.title with
        | some t => titleWords t
        | none => [])
    ++ (match s.metadata.content_snippet with
        | some c => pyMostCommon 5 (snippetWords c)
        | none => [])

/-- `Router0_4._extract_thematic_keywords`: `list(set(keywords))[:10]`, with
the set enumeration order abstracted as `d`. -/
def extractThematicKeywords (d : List String → List String) (s : CleanedSource) :
    List String :=
  (d (keywordPool s)).take 10

/-- Numeric relevance used by `rerank_sources` (`relevance_numeric`). -/
def relevanceNumeric : SourceRelevance → ℚ
  | .high => mkRat 1 1
  | .medium => mkRat 7 10
  | .low => mkRat 4 10
  | .irrelevant => 0

/-- Query words used as the diversity anchor: lowered words of the refined
query of length greater than 3, as a set (only its membership is consulted). -/
def queryWords (query : String) : Finset String :=
  (((pyWords query).filter (fun w => 3 < w.length)).map pyLower).toFinset

/-- The inner `source_score` of `rerank_sources`:
`0.6 * relevance_numeric + 0.3 * quality_score + 0.1 * diversity_score`, where
the diversity score is `min(1, |keywords \ query_words| / 5)`. -/
def sourceScore (d : List String → List String) (query : String) (s : CleanedSource) : ℚ :=
  let relevance_numeric := relevanceNumeric s.relevance
  let source_keywords : Finset String :=
    ((extractThematicKeywords d s).map pyLower).toFinset
  let unique_keywords := source_keywords \ queryWords query
  let diversity_score := min (mkRat 1 1) (mkRat unique_keywords.card 5)
  mkRat 6 10 * relevance_numeric + mkRat 3 10 * s.metadata.quality_score
    + mkRat 1 10 * diversity_score

/-- Combined source dictionary `{**cleaned_web_sources, **cleaned_twitter_sources}`. -/
def combinedSources (st : Router04) : List (String × CleanedSource) :=
  pyMerge st.cleaned_web_sources st.cleaned_twitter_sources

/-- Sources surviving the quality filter
(`source.metadata.quality_score >= self.quality_threshold`). -/
def filteredSources (st : Router04) : List (String × CleanedSource) :=
  (combinedSources st).filter
    (fun p => st.quality_threshold ≤ p.2.metadata.quality_score)

/-- The `source_scores` dictionary of `rerank_sources`. -/
def sourceScores (d : List String → List String) (st : Router04) : List (String × ℚ) :=
  (filteredSources st).map (fun p => (p.1, sourceScore d st.refined_query p.2))

/-- Sort key of `rerank_sources`: `source_scores.get(item[0], 0)`. -/
def scoreKey (d : List String → List String) (st : Router04)
    (p : String × CleanedSource) : ℚ :=
  (pyLookup p.1 (sourceScores d st)).getD 0

/-- `Router0_4.rerank_sources`: drop sources whose quality score is below the
threshold, then stably sort the survivors by descending score. -/
def rerankSources (d : List String → List String) (st : Router04) :
    List (String × CleanedSource) :=
  pySortDesc (scoreKey d st) (filteredSources st)

/-- Keyword-to-sources map built by `_cluster_sources_by_theme` before
consolidation: for every keyword (in set-enumeration order over the union of
the per-source keyword sets) the reranked sources carrying it, kept only when
at least two sources share it. -/
def buildThemes (d : List String → List String) (reranked : List (String × CleanedSource)) :
    List (String × List String) :=
  let source_keywords := reranked.map (fun p => (p.1, d (extractThematicKeywords d p.2)))
  let all_keywords := d ((source_keywords.map Prod.snd).flatten)
  (all_keywords.map (fun keyword =>
    (keyword, (source_keywords.filter (fun p => keyword ∈ p.2)).map Prod.fst))).filter
    (fun t => 1 < t.2.length)

/-- Overlap ratio `len(set(themes[t]) & set(sources)) / len(themes[t])` used by
the greedy consolidation. -/
def overlapRatio (ts sources : List String) : ℚ :=
  mkRat (ts.toFinset ∩ sources.toFinset).card ts.length

/-- Keys of the themes absorbed by the current theme: every other theme not
yet processed whose source list overlaps the current sources by strictly more
than half (`len(set(themes[t]) & set(sources)) / len(themes[t]) > 0.5`). -/
def overlappingThemes (themes : List (String × List String)) (processed : List String)
    (theme : String) (sources : List String) : List String :=
  (themes.filter (fun t =>
    t.1 ≠ theme ∧ ¬ t.1 ∈ processed ∧ mkRat 1 2 < overlapRatio t.2 sources)).map Prod.fst

/-- One pass of the greedy consolidation loop of `_cluster_sources_by_theme`:
themes are visited in stably-sorted descending-size order; each unprocessed
theme absorbs every other unprocessed theme whose source list overlaps its own
by strictly more than half, and absorbed themes are marked processed. -/
def consolidateLoop (d : List String → List String) (themes : List (String × List String)) :
    List (String × List String) → List String → List (String × List String)
  | [], _ => []
  | (theme, sources) :: rest, processed =>
    if theme ∈ processed then consolidateLoop d themes rest processed
    else if overlappingThemes themes processed theme sources = [] then
      (theme, sources) :: consolidateLoop d themes rest
        ((processed ++ [theme]) ++ overlappingThemes themes processed theme sources)
    else
      (theme ++ "+" ++ toString (overlappingThemes themes processed theme sources).length,
        d (sources ++ ((overlappingThemes themes processed theme sources).map
          (fun t => (pyLookup t themes).getD [])).flatten)) ::
        consolidateLoop d themes rest
          ((processed ++ [theme]) ++ overlappingThemes themes processed theme sources)

/-- The consolidation pass applied to a theme map. -/
def consolidateThemes (d : List String → List String)
    (themes : List (String × List String)) : List (String × List String) :=
  consolidateLoop d themes (pySortDesc (fun t => mkRat t.2.length 1) themes) []

/-- `Router0_4._cluster_sources_by_theme` on a fresh instance: build the
keyword themes over the reranked sources and consolidate them.  The
`if not self.reranked_sources` caching of the Python class recomputes the
(deterministic) reranking when it is absent, so the composition below is the
value the method stores and returns. -/
def clusterSourcesByTheme (d : List String → List String) (st : Router04) :
    List (String × List String) :=
  consolidateThemes d (buildThemes d (rerankSources d st))

/-- Agent count of `assign_source_agents`:
`max(MIN_SOURCE_AGENTS, min(MAX_SOURCE_AGENTS, (theme_count + 1) // 2))`. -/
def agentCount (theme_count : ℕ) : ℕ :=
  max 3 (min 15 ((theme_count + 1) / 2))

/-- The empty agents `agent_1 .. agent_n` with ascending priority. -/
def initAgents (n : ℕ) : List RouterSourceAgent :=
  (List.range n).map (fun i =>
    { agent_id := "agent_" ++ toString (i + 1)
      assigned_sources := []
      source_types := []
      priority := i + 1 })

/-- Inner loop body of the theme assignment: record the source type of an
assigned source on the agent when the source is reranked and its type is new.
The `assigned_sources` and `agent_id` fields are untouched. -/
def recordSourceType (reranked : List (String × CleanedSource))
    (ag : RouterSourceAgent) (source_id : String) : RouterSourceAgent :=
  match pyLookup source_id reranked with
  | some s =>
    if s.metadata.source_type ∈ ag.source_types then ag
    else { ag with source_types := ag.source_types ++ [s.metadata.source_type] }
  | none => ag

/-- Assign a whole theme to one agent: extend `assigned_sources` and record
each assigned source's type. -/
def addThemeSources (reranked : List (String × CleanedSource)) (sources : List String)
    (a : RouterSourceAgent) : RouterSourceAgent :=
  sources.foldl (recordSourceType reranked)
    { a with assigned_sources := a.assigned_sources ++ sources }

/-- One iteration of the assignment loop: pick the agent with the smallest
cumulative assigned-source count (the first such agent in insertion order,
Python `min(current_theme_sizes.items(), key=...)`), give it the whole theme,
and update the workload table. -/
def assignStep (reranked : List (String × CleanedSource))
    (acc : List RouterSourceAgent × List (String × ℕ)) (c : String × List String) :
    List RouterSourceAgent × List (String × ℕ) :=
  ((acc.1.map (fun a =>
      if a.agent_id = (pyArgminFirst acc.2).1 then addThemeSources reranked c.2 a else a)),
   acc.2.map (fun p =>
      if p.1 = (pyArgminFirst acc.2).1 then (p.1, p.2 + c.2.length) else p))

/-- The assignment loop of `assign_source_agents` over given clusters: themes
in stably-sorted descending-size order are each handed atomically to the
least-loaded agent.  The returned list carries the agents in dictionary
insertion order; the Python dict key of each entry is its `agent_id` field. -/
def assignFromClusters (reranked : List (String × CleanedSource))
    (clusters : List (String × List String)) : List RouterSourceAgent :=
  ((pySortDesc (fun t => mkRat t.2.length 1) clusters).foldl (assignStep reranked)
    (initAgents (agentCount clusters.length),
     (initAgents (agentCount clusters.length)).map (fun a => (a.agent_id, 0)))).1

/-- `Router0_4.assign_source_agents` on a fresh instance. -/
def assignSourceAgents (d : List String → List String) (st : Router04) :
    List RouterSourceAgent :=
  assignFromClusters (rerankSources d st) (clusterSourcesByTheme d st)

end Router04

/-! ## SourceAgent (`backend/processes/sourcing/agent.py`)

Only the clarification path is embedded; source processing is reflected in the
`processed_sources` map a state may already carry.  The two
`client.chat_completion` calls and the `json.loads(...).get("confidence", 0)`
parse are modelled by an oracle; `json.dumps` of insight and quote records in
the prompt is modelled by concrete renderers (no verified property depends on
the exact serialization text, only on the control flow around it). -/

namespace Sourcing

structure ProcessedQuote where
  content : String
  context : String := ""
  relevance : ℚ := 0
  themes : List String := []
deriving DecidableEq, Repr

structure SourceInsight where
  content : String
  confidence : ℚ := 0
  related_insights : List String := []
  supporting_quotes : List String := []
  themes : List String := []
deriving DecidableEq, Repr

structure ProcessedSource where
  source_id : String
  source_type : String := ""
  confidence_score : ℚ := 0
  complexity_score : ℚ := mkRat 7 10
  domain_tags : List String := []
  timestamp : String := ""
  potential_clarifications : List String := []
  key_insights : List SourceInsight := []
  major_themes : List String := []
  quoted_content : List (String × ProcessedQuote) := []
  summary : String := ""
deriving DecidableEq, Repr

/-- Entry of `clarification_cache`. -/
structure CacheEntry where
  response : String
  confidence : ℚ
  timestamp : String
deriving DecidableEq, Repr

/-- Mutable state of a `SourceAgent` instance (the fields its clarification
path reads or writes). -/
structure SourceAgentSt where
  meta_prompt : String := ""
  processed_sources : List (String × ProcessedSource) := []
  clarification_cache : List (String × CacheEntry) := []
  confidence_thresholds : List (String × ℚ) :=
    [("insight", mkRat 7 10), ("quote", mkRat 8 10), ("clarification", mkRat 3 4)]
deriving DecidableEq, Repr

/-- Environment of one clarification call: the completion-service collaborator
(`complete` over role/content messages, `parseConfidence` for
`json.loads(content).get("confidence", 0)`) and the wall clock used for cache
timestamps. -/
structure LLMOracle where
  complete : List (String × String) → PyResult String
  parseConfidence : String → PyResult ℚ
  now : String := ""

/-- Rendering of an insight record in the clarification prompt (modelling
`json.dumps(i.dict(), indent=2)`). -/
def renderInsight (i : SourceInsight) : String :=
  i.content ++ " [confidence " ++ toString i.confidence ++ "; themes "
    ++ String.intercalate ", " i.themes ++ "]"

/-- Rendering of a quote record in the clarification prompt. -/
def renderQuote (q : ProcessedQuote) : String :=
  q.content ++ " [themes " ++ String.intercalate ", " q.themes ++ "]"

/-- The clarification prompt of `get_clarification` (dynamic parts in source
order; the surrounding boilerplate text is abbreviated). -/
def clarificationPrompt (source_id query summary insights quotes : String) : String :=
  "Answer this clarification request about source " ++ source_id
    ++ "\nQuery: " ++ query
    ++ "\nSource Summary: " ++ summary
    ++ "\nRelevant Insights:\n" ++ insights
    ++ "\nSupporting Quotes:\n" ++ quotes

/-- The verification prompt of `get_clarification` (dynamic parts in source
order; boilerplate abbreviated). -/
def verificationPrompt (query response : String) : String :=
  "Verify this clarification response:\nOriginal Query: " ++ query
    ++ "\nResponse: " ++ response

/-- `SourceAgent.get_clarification`.  An unprocessed `source_id` returns the
not-found message; a cache hit returns the cached response; otherwise the
answer is generated, verified, cached only when the verification confidence
reaches `confidence_thresholds["clarification"]`, and returned.  Any exception
inside the `try` block is converted to the error string of the `except`
branch; the function itself never raises. -/
def getClarification (oracle : LLMOracle) (ag : SourceAgentSt)
    (query source_id : String) : PyResult String × SourceAgentSt :=
  match pyLookup source_id ag.processed_sources with
  | none => (.returned ("Source " ++ source_id ++ " not found"), ag)
  | some source =>
    let cache_key := source_id ++ ":" ++ query
    match pyLookup cache_key ag.clarification_cache with
    | some entry => (.returned entry.response, ag)
    | none =>
      let relevant_insights := source.key_insights.filter
        (fun i => i.themes.any (fun t => pySubstr t (pyLower query)))
      let relevant_quotes := (source.quoted_content.map Prod.snd).filter
        (fun q => q.themes.any (fun t => pySubstr t (pyLower query)))
      let prompt := clarificationPrompt source_id query source.summary
        (String.intercalate "\n" (relevant_insights.map renderInsight))
        (String.intercalate "\n" (relevant_quotes.map renderQuote))
      match oracle.complete [("system", ag.meta_prompt), ("user", prompt)] with
      | .raised e => (.returned ("Error clarifying source " ++ source_id ++ ": " ++ e), ag)
      | .returned clarification =>
        match oracle.complete [("user", verificationPrompt query clarification)] with
        | .raised e =>
          (.returned ("Error clarifying source " ++ source_id ++ ": " ++ e), ag)
        | .returned verify_content =>
          match oracle.parseConfidence verify_content with
          | .raised e =>
            (.returned ("Error clarifying source " ++ source_id ++ ": " ++ e), ag)
          | .returned confidence =>
            let threshold := (pyLookup "clarification" ag.confidence_thresholds).getD 0
            let ag1 :=
              if threshold ≤ confidence then
                { ag with clarification_cache :=
                    (pyInsert cache_key
                      ⟨clarification, confidence, oracle.now⟩ ag.clarification_cache) }
              else ag
            (.returned clarification, ag1)

end Sourcing

/-! ## SourceDirector (`backend/processes/sourcing/director.py`)

Timestamps are abstract rational clock readings; the elapsed response time of
a dispatch is likewise a caller-supplied rational. -/

namespace Director

structure DirectorRequest where
  agent_id : String
  source_id : String
  query : String
  context : Option String := none
deriving DecidableEq, Repr

/-- Response record.  The source passes the `ProcessedQuote` values of
`source.quoted_content` directly as the supporting quotes, so the field keeps
that type here. -/
structure DirectorResponse where
  agent_id : String
  source_id : String
  clarification : String
  confidence : ℚ
  supporting_quotes : List Sourcing.ProcessedQuote
deriving DecidableEq, Repr

structure AgentState where
  agent_id : String
  assigned_sources : List String
  active_queries : ℤ := 0
  completed_queries : ℤ := 0
  avg_response_time : ℚ := 0
  last_active : ℚ
deriving DecidableEq, Repr

structure QueryLogEntry where
  timestamp : ℚ
  agent_id : String
  source_id : String
  query : String
  context : Option String
  success : Bool
deriving DecidableEq, Repr

/-- Mutable state of a `SourceDirector` instance. -/
structure DirectorSt where
  agents : List (String × Sourcing.SourceAgentSt) := []
  agent_states : List (String × AgentState) := []
  source_assignments : List (String × String) := []
  query_history : List QueryLogEntry := []
  max_parallel_queries : ℕ := 5
deriving DecidableEq, Repr

/-- `SourceDirector.register_agent` at clock reading `now`. -/
def registerAgent (now : ℚ) (st : DirectorSt) (agent_id : String)
    (agent : Sourcing.SourceAgentSt) (assigned_sources : List String) : DirectorSt :=
  { st with
    agents := pyInsert agent_id agent st.agents
    agent_states := (pyInsert agent_id
      { agent_id := agent_id
        assigned_sources := assigned_sources
        last_active := now } st.agent_states)
    source_assignments :=
      (assigned_sources.foldl (fun m source_id => pyInsert source_id agent_id m)
        st.source_assignments) }

/-- `SourceDirector._get_agent_for_source`. -/
def getAgentForSource (st : DirectorSt) (source_id : String) : Option String :=
  pyLookup source_id st.source_assignments

/-- `SourceDirector._update_agent_metrics` (the `success` argument is accepted
and unused, as in the source). -/
def updateAgentMetrics (now : ℚ) (st : DirectorSt) (agent_id : String)
    (response_time : ℚ) (_success : Bool) : DirectorSt :=
  if agent_id ∈ pyKeys st.agent_states then
    { st with agent_states := (pyUpdate agent_id
        (fun s =>
          { s with
            completed_queries := s.completed_queries + 1
            avg_response_time := (1 - mkRat 1 10) * s.avg_response_time + mkRat 1 10 * response_time
            last_active := now }) st.agent_states) }
  else st

/-- `SourceDirector._process_query`: ask the agent, build the response (with an
error response if the agent call raised), then update the metrics.  The agent
object is shared with `st.agents`, so its cache mutation is written back. -/
def processQuery (oracle : Sourcing.LLMOracle) (elapsed now : ℚ) (st : DirectorSt)
    (agent : Sourcing.SourceAgentSt) (agent_id source_id query : String) :
    DirectorResponse × DirectorSt :=
  let call := Sourcing.getClarification oracle agent query source_id
  let response : DirectorResponse :=
    match call.1 with
    | .returned clarification =>
      match pyLookup source_id call.2.processed_sources with
      | some source =>
        { agent_id := agent_id
          source_id := source_id
          clarification := clarification
          confidence := source.confidence_score
          supporting_quotes := (source.quoted_content.map Prod.snd).take 3 }
      | none =>
        { agent_id := agent_id
          source_id := source_id
          clarification := clarification
          confidence := mkRat 1 2
          supporting_quotes := [] }
    | .raised e =>
      { agent_id := agent_id
        source_id := source_id
        clarification := "Error: " ++ e
        confidence := 0
        supporting_quotes := [] }
  let st1 := updateAgentMetrics now st agent_id elapsed (decide (0 < response.confidence))
  (response, { st1 with agents := pyUpdate agent_id (fun _ => call.2) st1.agents })

/-- Increment or decrement an agent's `active_queries` counter. -/
def bumpActive (agent_id : String) (delta : ℤ) (st : DirectorSt) : DirectorSt :=
  { st with agent_states := (pyUpdate agent_id
      (fun s => { s with active_queries := s.active_queries + delta }) st.agent_states) }

/-- `SourceDirector.get_clarification` with the body of its `try` block (the
awaited `_process_query` call together with the history append on success)
abstracted as `body`.  The routing validation rejects an unknown agent or a
source not assigned to the claimed agent by returning `None` untouched; on the
dispatch path the active-query counter is incremented before the body and, as
in the `finally` clause, decremented afterwards whether the body returned or
raised. -/
def getClarificationWith (body : DirectorSt → PyResult DirectorResponse × DirectorSt)
    (logTime : ℚ) (st : DirectorSt) (req : DirectorRequest) :
    PyResult (Option DirectorResponse) × DirectorSt :=
  if ¬ req.agent_id ∈ pyKeys st.agents then (.returned none, st)
  else if getAgentForSource st req.source_id ≠ some req.agent_id then (.returned none, st)
  else
    match body (bumpActive req.agent_id 1 st) with
    | (.returned response, st2) =>
      (.returned (some response), bumpActive req.agent_id (-1)
        { st2 with query_history := (st2.query_history ++
          [{ timestamp := logTime
             agent_id := req.agent_id
             source_id := req.source_id
             query := req.query
             context := req.context
             success := decide (0 < response.confidence) }]) })
    | (.raised e, st2) => (.raised e, bumpActive req.agent_id (-1) st2)

/-- The concrete body of `get_clarification`: fetch the agent recorded before
dispatch and run `_process_query` through it. -/
def dispatchBody (oracle : Sourcing.LLMOracle) (elapsed now : ℚ)
    (outer_agents : List (String × Sourcing.SourceAgentSt)) (req : DirectorRequest) :
    DirectorSt → PyResult DirectorResponse × DirectorSt := fun s =>
  match pyLookup req.agent_id outer_agents with
  | some agent =>
    let r := processQuery oracle elapsed now s agent req.agent_id req.source_id req.query
    (.returned r.1, r.2)
  | none => (.raised "KeyError", s)

/-- `SourceDirector.get_clarification`. -/
def getClarification (oracle : Sourcing.LLMOracle) (elapsed now : ℚ)
    (st : DirectorSt) (req : DirectorRequest) :
    PyResult (Option DirectorResponse) × DirectorSt :=
  getClarificationWith (dispatchBody oracle elapsed now st.agents req) now st req

/-- Active-query counter of an agent, if it has a registered state. -/
def activeQueriesOf (st : DirectorSt) (agent_id : String) : Option ℤ :=
  (pyLookup agent_id st.agent_states).map (fun s => s.active_queries)

end Director

/-! ## Writer (`backend/processes/report/writer.py`)

The evaluate/revise loop of `Writer.generate_draft` (phase 4).  The evaluator
and the revision step are LLM-backed; they are modelled as oracle functions
indexed by the iteration counter so that successive calls may behave
differently. -/

namespace Writer

structure SourceReference where
  source_id : String
  title : Option String := none
  url : Option String := none
  author : Option String := none
  publication_date : Option String := none
  snippet : Option String := none
deriving DecidableEq, Repr

structure ReportSection where
  title : String
  content : String
  sources : List SourceReference := []
deriving DecidableEq, Repr

structure ReportDraft where
  title : String
  summary : String
  sections : List ReportSection := []
  references : List SourceReference := []
  keywords : List String := []
deriving DecidableEq, Repr

structure QualityScore where
  coverage : ℚ
  depth : ℚ
  coherence : ℚ
  citation : ℚ
deriving DecidableEq, Repr

structure DraftEvaluation where
  scores : QualityScore
  improvements_needed : List String
  meets_threshold : Bool
deriving DecidableEq, Repr

/-- The iteration cap `max_iterations = 5` of `generate_draft`. -/
def maxIterations : ℕ := 5

/-- The `while iteration < max_iterations` loop of phase 4, with
`fuel = max_iterations - iteration`: evaluate the current draft, stop when it
meets the threshold, otherwise revise and continue.  Returns the final draft,
the last evaluation performed, and the number of revision
(`_iterate_draft`) calls. -/
def draftIterLoop (evalF : ℕ → ReportDraft → DraftEvaluation)
    (revF : ℕ → ReportDraft → ReportDraft) :
    ℕ → ℕ → ReportDraft → Option DraftEvaluation →
      ReportDraft × Option DraftEvaluation × ℕ
  | 0, _, d, last_eval => (d, last_eval, 0)
  | fuel + 1, iteration, d, _ =>
    let e := evalF iteration d
    if e.meets_threshold then (d, some e, 0)
    else
      let r := draftIterLoop evalF revF fuel (iteration + 1) (revF iteration d) (some e)
      (r.1, r.2.1, r.2.2 + 1)

/-- Phase 4 of `Writer.generate_draft`, started at `iteration = 0` with no
evaluation yet. -/
def generateDraftIteration (evalF : ℕ → ReportDraft → DraftEvaluation)
    (revF : ℕ → ReportDraft → ReportDraft) (d0 : ReportDraft) :
    ReportDraft × Option DraftEvaluation × ℕ :=
  draftIterLoop evalF revF maxIterations 0 d0 none

/-- The `suggested_improvements` field of the returned `WriterResponse`:
`evaluation.improvements_needed if evaluation and not evaluation.meets_threshold
else []`. -/
def suggestedImprovements : Option DraftEvaluation → List String
  | some e => if e.meets_threshold then [] else e.improvements_needed
  | none => []

/-- Draft after `k` further revision calls, the first using iteration index
`start`. -/
def applyRevisions (revF : ℕ → ReportDraft → ReportDraft) :
    ℕ → ℕ → ReportDraft → ReportDraft
  | _, 0, d => d
  | start, k + 1, d => applyRevisions revF (start + 1) k (revF start d)

end Writer

/-! ## Concrete scenario states -/

namespace Router04

/-- Web source with the given identifier, keywords, quality score, high
relevance and no title or snippet. -/
def mkWebSource (id : String) (kws : List String) (q : ℚ) : CleanedSource :=
  { metadata := { source_id := id, source_type := .web, quality_score := q }
    keywords := kws
    relevance := .high }

/-- Scenario of the clustering claim: the keyword "transformers" is shared by
sources B, C, A and "efficiency" by B, C, D, so the built themes cover
exactly the source sets of that scenario. -/
def scenarioMergeRouter : Router04 :=
  { cleaned_web_sources :=
      [("srcA", mkWebSource "srcA" ["transformers"] (mkRat 8 10)),
       ("srcB", mkWebSource "srcB" ["transformers", "efficiency"] (mkRat 8 10)),
       ("srcC", mkWebSource "srcC" ["transformers", "efficiency"] (mkRat 8 10)),
       ("srcD", mkWebSource "srcD" ["efficiency"] (mkRat 8 10))]
    cleaned_twitter_sources := [] }

/-- Router state whose consolidated themes overlap in exactly one source
(ratio 1/2, below the merge bar), sharing source A. -/
def scenarioOverlapRouter : Router04 :=
  { cleaned_web_sources :=
      [("srcA", mkWebSource "srcA" ["kone", "ktwo"] (mkRat 8 10)),
       ("srcB", mkWebSource "srcB" ["kone"] (mkRat 8 10)),
       ("srcC", mkWebSource "srcC" ["ktwo"] (mkRat 8 10))]
    cleaned_twitter_sources := [] }

/-- Router state whose consolidated themes are pairwise disjoint. -/
def scenarioDisjointRouter : Router04 :=
  { cleaned_web_sources :=
      [("srcA", mkWebSource "srcA" ["kone"] (mkRat 8 10)),
       ("srcB", mkWebSource "srcB" ["kone"] (mkRat 8 10)),
       ("srcC", mkWebSource "srcC" ["ktwo"] (mkRat 8 10)),
       ("srcD", mkWebSource "srcD" ["ktwo"] (mkRat 8 10))]
    cleaned_twitter_sources := [] }

/-- Router state for the consolidation-idempotence analysis: one big theme
absorbs two medium themes that drag in the two sources of a small surviving
theme, so the consolidated output contains a fully-overlapping pair. -/
def scenarioChainRouter : Router04 :=
  { cleaned_web_sources :=
      [("sone", mkWebSource "sone" ["kx", "km", "kn"] (mkRat 8 10)),
       ("stwo", mkWebSource "stwo" ["kx", "km", "kn"] (mkRat 8 10)),
       ("sthree", mkWebSource "sthree" ["kx"] (mkRat 8 10)),
       ("sfour", mkWebSource "sfour" ["kx"] (mkRat 8 10)),
       ("ssix", mkWebSource "ssix" ["km", "ky"] (mkRat 8 10)),
       ("sseven", mkWebSource "sseven" ["kn", "ky"] (mkRat 8 10))]
    cleaned_twitter_sources := [] }

/-- Router state where source `sx` carries eleven distinct keywords, six of
which occur in the refined query: the `[:10]` truncation of its enumerated
keyword set drops one keyword, and its diversity score depends on which. -/
def scenarioHashRouter : Router04 :=
  { cleaned_web_sources :=
      [("sx", mkWebSource "sx"
          ["query1", "query2", "query3", "query4", "query5", "query6",
           "extra1", "extra2", "extra3", "extra4", "extra5"] (mkRat 8 10)),
       ("sy", mkWebSource "sy" ["yone", "ytwo", "ythree"] (mkRat 9 10))]
    cleaned_twitter_sources := []
    refined_query := "query1 query2 query3 query4 query5 query6" }

/-- Router state with no sources at all. -/
def emptyRouter : Router04 :=
  { cleaned_web_sources := [], cleaned_twitter_sources := [] }

end Router04

/-- Oracle whose completion service is unreachable. -/
def Sourcing.oracleUnavailable : Sourcing.LLMOracle :=
  { complete := fun _ => .raised "unavailable"
    parseConfidence := fun _ => .raised "unavailable" }

/-- Source agent with no processed sources and an empty cache. -/
def Sourcing.emptyAgent : Sourcing.SourceAgentSt := {}

/-- Director with `agent_1` registered for sources `s1` and `s2` at clock 0. -/
def Director.scenarioDirector : Director.DirectorSt :=
  Director.registerAgent 0 {} "agent_1" Sourcing.emptyAgent ["s1", "s2"]

/-- Clarification request for source `s3` routed through `agent_1`. -/
def Director.misroutedRequest : Director.DirectorRequest :=
  { agent_id := "agent_1", source_id := "s3", query := "q" }

/-! ## Lemmas on the Python collection primitives -/

theorem pyDedup_foldl_invariant (l acc : List String) :
    (acc.Nodup → (l.foldl (fun acc x => if x ∈ acc then acc else acc ++ [x]) acc).Nodup)
    ∧ ∀ a, a ∈ l.foldl (fun acc x => if x ∈ acc then acc else acc ++ [x]) acc ↔
        (a ∈ acc ∨ a ∈ l) := by
  induction l generalizing acc with
  | nil => simp
  | cons x xs ih =>
    constructor
    · intro hnd
      by_cases hx : x ∈ acc
      · simpa [hx] using (ih acc).1 hnd
      · simp only [List.foldl_cons, if_neg hx]
        exact (ih (acc ++ [x])).1 (by simp [List.nodup_append, hnd, hx])
    · intro a
      by_cases hx : x ∈ acc
      · rw [List.foldl_cons, if_pos hx, (ih acc).2 a]
        constructor
        · rintro (h | h)
          · exact Or.inl h
          · exact Or.inr (List.mem_cons_of_mem _ h)
        · rintro (h | h)
          · exact Or.inl h
          · rcases List.mem_cons.mp h with rfl | h
            · exact Or.inl hx
            · exact Or.inr h
      · rw [List.foldl_cons, if_neg hx, (ih (acc ++ [x])).2 a]
        simp [List.mem_append, List.mem_cons, or_assoc]

theorem isPySetEnum_pyDedup : IsPySetEnum pyDedup := by
  intro l
  have h := pyDedup_foldl_invariant l []
  refine ⟨h.1 List.nodup_nil, fun a => ?_⟩
  rw [pyDedup, h.2 a]
  simp

theorem isPySetEnum_pyDedupRev : IsPySetEnum pyDedupRev := by
  intro l
  refine ⟨List.nodup_reverse.mpr (isPySetEnum_pyDedup l).1, fun a => ?_⟩
  rw [pyDedupRev, List.mem_reverse]
  exact (isPySetEnum_pyDedup l).2 a

theorem IsPySetEnum.nil_eq {d : List String → List String} (hd : IsPySetEnum d) :
    d [] = [] := by
  rw [List.eq_nil_iff_forall_not_mem]
  intro a ha
  exact absurd ((hd []).2 a |>.mp ha) (List.not_mem_nil a)

theorem pySortDesc_perm (key : α → ℚ) (l : List α) : (pySortDesc key l).Perm l :=
  List.perm_insertionSort _ l

theorem pySortDesc_sorted (key : α → ℚ) (l : List α) :
    (pySortDesc key l).Pairwise (fun a b => key b ≤ key a) := by
  haveI : IsTotal α (fun a b => key b ≤ key a) := ⟨fun a b => le_total (key b) (key a)⟩
  haveI : IsTrans α (fun a b => key b ≤ key a) := ⟨fun _ _ _ hab hbc => le_trans hbc hab⟩
  exact List.sorted_insertionSort _ l

theorem pyArgminFirst_mem (l : List (String × ℕ)) (h : l ≠ []) :
    pyArgminFirst l ∈ l := by
  induction l with
  | nil => exact absurd rfl h
  | cons p ps ih =>
    cases ps with
    | nil => simp [pyArgminFirst]
    | cons q qs =>
      rw [pyArgminFirst]
      by_cases hle : p.2 ≤ (pyArgminFirst (q :: qs)).2
      · simp [hle]
      · simp only [if_neg hle]
        exact List.mem_cons_of_mem _ (ih (by simp))

theorem pyLookup_pyUpdate (k k' : String) (f : α → α) (l : List (String × α)) :
    pyLookup k (pyUpdate k' f l) =
      if k = k' then (pyLookup k l).map f else pyLookup k l := by
  induction l with
  | nil => simp [pyUpdate, pyLookup]
  | cons p ps ih =>
    by_cases hp : p.1 = k
    · by_cases hk : k = k'
      · simp [pyUpdate, pyLookup, hp, hk]
      · have : ¬ p.1 = k' := by rw [hp]; exact hk
        simp [pyUpdate, pyLookup, hp, hk, this]
    · by_cases hp' : p.1 = k'
      · have hkk : ¬ (k' = k) := fun h => hp (hp'.trans h)
        have hkk2 : ¬ (k = k') := fun h => hkk h.symm
        simpa [pyUpdate, pyLookup, hp, hp', hkk, hkk2] using ih
      · simpa [pyUpdate, pyLookup, hp, hp'] using ih

theorem pyLookup_map_overwrite (k : String) (v : α) (l : List (String × α))
    (hk : k ∈ pyKeys l) :
    pyLookup k (l.map (fun p => if p.1 = k then (k, v) else p)) = some v := by
  induction l with
  | nil => simp [pyKeys] at hk
  | cons p ps ih =>
    by_cases hp : p.1 = k
    · simp [pyLookup, hp]
    · have hk2 : k ∈ pyKeys ps := by
        rcases List.mem_map.mp hk with ⟨q, hq, hqk⟩
        rcases List.mem_cons.mp hq with rfl | hq2
        · exact absurd hqk hp
        · exact List.mem_map.mpr ⟨q, hq2, hqk⟩
      simpa [pyLookup, hp] using ih hk2

theorem pyLookup_append_single (k : String) (v : α) (l : List (String × α))
    (hk : ¬ k ∈ pyKeys l) :
    pyLookup k (l ++ [(k, v)]) = some v := by
  induction l with
  | nil => simp [pyLookup]
  | cons p ps ih =>
    have hp : p.1 ≠ k := fun hpk => hk (List.mem_map.mpr ⟨p, List.mem_cons_self p ps, hpk⟩)
    have hk2 : ¬ k ∈ pyKeys ps := fun hm => by
      rcases List.mem_map.mp hm with ⟨q, hq, hqk⟩
      exact hk (List.mem_map.mpr ⟨q, List.mem_cons_of_mem _ hq, hqk⟩)
    simpa [pyLookup, hp] using ih hk2

theorem pyLookup_pyInsert_self (k : String) (v : α) (l : List (String × α)) :
    pyLookup k (pyInsert k v l) = some v := by
  rw [pyInsert]
  by_cases hk : k ∈ pyKeys l
  · rw [if_pos hk]
    exact pyLookup_map_overwrite k v l hk
  · rw [if_neg hk]
    exact pyLookup_append_single k v l hk

/-! ## Claim C1: rerank membership -/

/-- Claim C1: for every input source map and every threshold, `rerank_sources`
returns exactly the sources of the combined map whose `metadata.quality_score`
is at least the threshold (boundary value included), and no others. -/
theorem claim1_rerank_membership (d : List String → List String) (st : Router04)
    (id : String) (s : CleanedSource) :
    (id, s) ∈ Router04.rerankSources d st ↔
      (id, s) ∈ Router04.combinedSources st
        ∧ st.quality_threshold ≤ s.metadata.quality_score := by
  rw [Router04.rerankSources,
    (pySortDesc_perm (Router04.scoreKey d st) (Router04.filteredSources st)).mem_iff]
  simp [Router04.filteredSources, List.mem_filter]

/-! ## Claim C5: the writer revision cap -/

/-- Claim C5: if the draft evaluator always reports `meets_threshold = false`,
the evaluate/revise loop of `generate_draft` performs exactly 5 revision calls
(never a 6th) and stops, returning the draft after the fifth revision together
with the improvements-needed list of the last evaluation performed. -/
theorem claim5_writer_revision_cap (evalF : ℕ → Writer.ReportDraft → Writer.DraftEvaluation)
    (revF : ℕ → Writer.ReportDraft → Writer.ReportDraft) (d0 : Writer.ReportDraft)
    (h : ∀ i dr, (evalF i dr).meets_threshold = false) :
    Writer.generateDraftIteration evalF revF d0 =
      (Writer.applyRevisions revF 0 5 d0,
       some (evalF 4 (Writer.applyRevisions revF 0 4 d0)), 5)
    ∧ Writer.suggestedImprovements (Writer.generateDraftIteration evalF revF d0).2.1 =
        (evalF 4 (Writer.applyRevisions revF 0 4 d0)).improvements_needed := by
  have hloop : Writer.generateDraftIteration evalF revF d0 =
      (Writer.applyRevisions revF 0 5 d0,
       some (evalF 4 (Writer.applyRevisions revF 0 4 d0)), 5) := by
    simp [Writer.generateDraftIteration, Writer.maxIterations, Writer.draftIterLoop,
      Writer.applyRevisions, h]
  refine ⟨hloop, ?_⟩
  rw [hloop]
  simp [Writer.suggestedImprovements, h]

/-- Witness for C5 at a constantly failing evaluator, an identity revision
step and a trivial initial draft. -/
theorem claim5_witness :
    (∀ i dr, ((fun (_ : ℕ) (_ : Writer.ReportDraft) =>
        (⟨⟨0, 0, 0, 0⟩, ["expand coverage"], false⟩ : Writer.DraftEvaluation)) i dr).meets_threshold
        = false)
    ∧ (Writer.generateDraftIteration
        (fun _ _ => ⟨⟨0, 0, 0, 0⟩, ["expand coverage"], false⟩)
        (fun _ dr => dr) ⟨"t", "s", [], [], []⟩).2.2 = 5 :=
  ⟨fun _ _ => rfl,
    by rw [(claim5_writer_revision_cap
      (fun _ _ => ⟨⟨0, 0, 0, 0⟩, ["expand coverage"], false⟩)
      (fun _ dr => dr) ⟨"t", "s", [], [], []⟩ (fun _ _ => rfl)).1]⟩

/-! ## Claim C6: director routing validation -/

/-- Claim C6: a clarification request whose agent is not registered, or whose
source is not assigned to that agent, is rejected by
`SourceDirector.get_clarification` with `None` and an unchanged director state,
without dispatching anything to an agent (the result is the same for every
possible dispatch body and every oracle). -/
theorem claim6_misrouted_request (st : Director.DirectorSt) (req : Director.DirectorRequest)
    (h : ¬ req.agent_id ∈ pyKeys st.agents
      ∨ Director.getAgentForSource st req.source_id ≠ some req.agent_id) :
    (∀ (body : Director.DirectorSt → PyResult Director.DirectorResponse × Director.DirectorSt)
      (logTime : ℚ),
      Director.getClarificationWith body logTime st req = (.returned none, st))
    ∧ ∀ (oracle : Sourcing.LLMOracle) (elapsed now : ℚ),
      Director.getClarification oracle elapsed now st req = (.returned none, st) := by
  have hgen : ∀ (body : Director.DirectorSt → PyResult Director.DirectorResponse
      × Director.DirectorSt) (logTime : ℚ),
      Director.getClarificationWith body logTime st req = (.returned none, st) := by
    intro body logTime
    rcases h with h | h
    · simp [Director.getClarificationWith, h]
    · by_cases hm : req.agent_id ∈ pyKeys st.agents
      · simp [Director.getClarificationWith, hm, h]
      · simp [Director.getClarificationWith, hm]
  exact ⟨hgen, fun oracle elapsed now => hgen _ now⟩

/-- Witness for C6: after registering `agent_1` for sources `s1` and `s2`, a
request for `s3` through `agent_1` is rejected with `None`. -/
theorem claim6_witness :
    (¬ Director.misroutedRequest.agent_id ∈ pyKeys Director.scenarioDirector.agents
      ∨ Director.getAgentForSource Director.scenarioDirector
          Director.misroutedRequest.source_id ≠ some Director.misroutedRequest.agent_id)
    ∧ Director.getClarification Sourcing.oracleUnavailable 0 0
        Director.scenarioDirector Director.misroutedRequest
        = (.returned none, Director.scenarioDirector) :=
  ⟨by decide,
    (claim6_misrouted_request Director.scenarioDirector Director.misroutedRequest
      (by decide)).2 Sourcing.oracleUnavailable 0 0⟩

/-! ## Claim C7: clarification on an unprocessed source -/

/-- Counterexample to claim C7 as stated: `SourceAgent.get_clarification` on a
source that was never processed does not fail with an exception (there is no
`SourceNotFoundError` anywhere in the code); at the concrete input below it
performs an ordinary `return` of the not-found message. -/
theorem claim7_counterexample :
    ¬ ∀ (oracle : Sourcing.LLMOracle) (ag : Sourcing.SourceAgentSt) (query source_id : String),
        pyLookup source_id ag.processed_sources = none →
        ∃ e, (Sourcing.getClarification oracle ag query source_id).1 = .raised e := by
  intro h
  obtain ⟨e, he⟩ := h Sourcing.oracleUnavailable Sourcing.emptyAgent "q" "s3" rfl
  rw [show (Sourcing.getClarification Sourcing.oracleUnavailable Sourcing.emptyAgent
    "q" "s3").1 = .returned "Source s3 not found" from rfl] at he
  exact PyResult.noConfusion he

/-- Claim C7 amended: for a source id that was never processed,
`get_clarification` returns the string `"Source {source_id} not found"` by an
ordinary `return` (not an exception), leaves the agent state unchanged, and
consults no oracle. -/
theorem claim7_amended (oracle : Sourcing.LLMOracle) (ag : Sourcing.SourceAgentSt)
    (query source_id : String)
    (h : pyLookup source_id ag.processed_sources = none) :
    Sourcing.getClarification oracle ag query source_id =
      (.returned ("Source " ++ source_id ++ " not found"), ag) := by
  simp [Sourcing.getClarification, h]

/-- Witness for C7 at an agent with no processed sources. -/
theorem claim7_witness :
    pyLookup "s3" Sourcing.emptyAgent.processed_sources = none
    ∧ Sourcing.getClarification Sourcing.oracleUnavailable Sourcing.emptyAgent "q" "s3"
        = (.returned "Source s3 not found", Sourcing.emptyAgent) :=
  ⟨rfl, claim7_amended Sourcing.oracleUnavailable Sourcing.emptyAgent "q" "s3" rfl⟩

/-! ## Claim C9: the greedy theme merge -/

/-- Claim C9: on sources realizing a theme "transformers" covering
B, C, A and a theme "efficiency" covering B, C, D (overlap 2/3 of the
absorbed theme, above the 0.5 bar), the consolidation produces the single
theme "transformers+1" covering exactly those four sources. -/
theorem claim9_merge_scenario :
    Router04.buildThemes pyDedup (Router04.rerankSources pyDedup Router04.scenarioMergeRouter)
      = [("transformers", ["srcB", "srcC", "srcA"]),
         ("efficiency", ["srcB", "srcC", "srcD"])]
    ∧ Router04.overlapRatio ["srcB", "srcC", "srcD"] ["srcB", "srcC", "srcA"] = mkRat 2 3
    ∧ mkRat 1 2 < Router04.overlapRatio ["srcB", "srcC", "srcD"] ["srcB", "srcC", "srcA"]
    ∧ Router04.clusterSourcesByTheme pyDedup Router04.scenarioMergeRouter
      = [("transformers+1", ["srcB", "srcC", "srcA", "srcD"])] := by
  refine ⟨by decide, by decide, by decide, by decide⟩

/-! ## Claim C10: the active-query counter -/

theorem Director.activeQueriesOf_bumpActive (st : Director.DirectorSt)
    (agent_id : String) (delta : ℤ) :
    Director.activeQueriesOf (Director.bumpActive agent_id delta st) agent_id
      = (Director.activeQueriesOf st agent_id).map (fun a => a + delta) := by
  simp [Director.activeQueriesOf, Director.bumpActive, pyLookup_pyUpdate, Option.map_map]
  rfl

theorem Director.activeQueriesOf_updateAgentMetrics (now : ℚ) (st : Director.DirectorSt)
    (agent_id : String) (response_time : ℚ) (success : Bool) (x : String) :
    Director.activeQueriesOf (Director.updateAgentMetrics now st agent_id response_time success) x
      = Director.activeQueriesOf st x := by
  rw [Director.updateAgentMetrics]
  split
  · simp only [Director.activeQueriesOf, pyLookup_pyUpdate]
    split
    · simp [Option.map_map]
      rfl
    · rfl
  · rfl

theorem Director.activeQueriesOf_processQuery (oracle : Sourcing.LLMOracle)
    (elapsed now : ℚ) (st : Director.DirectorSt) (agent : Sourcing.SourceAgentSt)
    (agent_id source_id query : String) (x : String) :
    Director.activeQueriesOf
        (Director.processQuery oracle elapsed now st agent agent_id source_id query).2 x
      = Director.activeQueriesOf st x :=
  Director.activeQueriesOf_updateAgentMetrics now st agent_id elapsed _ x

theorem Director.getClarificationWith_active
    (body : Director.DirectorSt → PyResult Director.DirectorResponse × Director.DirectorSt)
    (logTime : ℚ) (st : Director.DirectorSt) (req : Director.DirectorRequest)
    (hbody : ∀ s, Director.activeQueriesOf (body s).2 req.agent_id
      = Director.activeQueriesOf s req.agent_id) :
    Director.activeQueriesOf (Director.getClarificationWith body logTime st req).2 req.agent_id
      = Director.activeQueriesOf st req.agent_id := by
  rw [Director.getClarificationWith]
  by_cases h1 : ¬ req.agent_id ∈ pyKeys st.agents
  · rw [if_pos h1]
  · rw [if_neg h1]
    by_cases h2 : Director.getAgentForSource st req.source_id ≠ some req.agent_id
    · rw [if_pos h2]
    · rw [if_neg h2]
      rcases hq : body (Director.bumpActive req.agent_id 1 st) with ⟨r, st2b⟩
      have hpres := hbody (Director.bumpActive req.agent_id 1 st)
      rw [hq] at hpres
      have hcancel : ∀ s3 : Director.DirectorSt,
          Director.activeQueriesOf s3 req.agent_id
            = Director.activeQueriesOf (Director.bumpActive req.agent_id 1 st) req.agent_id →
          Director.activeQueriesOf (Director.bumpActive req.agent_id (-1) s3) req.agent_id
            = Director.activeQueriesOf st req.agent_id := by
        intro s3 h3
        rw [Director.activeQueriesOf_bumpActive, h3, Director.activeQueriesOf_bumpActive,
          Option.map_map]
        cases Director.activeQueriesOf st req.agent_id with
        | none => rfl
        | some a =>
          show some (a + 1 + (-1)) = some a
          rw [Option.some_inj]
          omega
      cases r with
      | returned resp => exact hcancel _ hpres
      | raised e => exact hcancel _ hpres

/-- Claim C10: on the dispatch path of `SourceDirector.get_clarification` the
agent's `active_queries` counter is incremented before the dispatch and
decremented afterwards as by the `finally` clause, so after the call it equals
its pre-call value whether the inner processing returned or raised (the
counter equality holds for every dispatch body that leaves the counter alone,
and the concrete `_process_query` body does); and a freshly registered agent
starts with `active_queries = 0`. -/
theorem claim10_active_queries (oracle : Sourcing.LLMOracle) (elapsed now now2 : ℚ)
    (st st2 : Director.DirectorSt) (req : Director.DirectorRequest)
    (agent_id : String) (agent : Sourcing.SourceAgentSt) (assigned : List String) :
    Director.activeQueriesOf (Director.getClarification oracle elapsed now st req).2 req.agent_id
      = Director.activeQueriesOf st req.agent_id
    ∧ Director.activeQueriesOf (Director.registerAgent now2 st2 agent_id agent assigned) agent_id
      = some 0 := by
  constructor
  · refine Director.getClarificationWith_active _ now st req (fun s => ?_)
    simp only [Director.dispatchBody]
    cases hl : pyLookup req.agent_id st.agents with
    | none => rfl
    | some ag =>
      exact Director.activeQueriesOf_processQuery oracle elapsed now s ag
        req.agent_id req.source_id req.query req.agent_id
  · rw [Director.registerAgent]
    simp only [Director.activeQueriesOf]
    rw [pyLookup_pyInsert_self]
    rfl

/-! ## Claim C8: empty input behaviour -/

/-- Counterexample to claim C8 as stated: on the empty source map,
`assign_source_agents` does not return an empty output; it returns the three
minimum agents. -/
theorem claim8_counterexample :
    Router04.assignSourceAgents pyDedup Router04.emptyRouter ≠ []
    ∧ (Router04.assignSourceAgents pyDedup Router04.emptyRouter).length = 3 := by
  refine ⟨by decide, by decide⟩

/-- Claim C8 amended: on an empty combined source map no operation raises and
the reranked map and theme map are empty, while `assign_source_agents` returns
the `MIN_SOURCE_AGENTS = 3` initial agents, each with an empty assignment. -/
theorem claim8_amended (d : List String → List String) (hd : IsPySetEnum d)
    (st : Router04) (hw : st.cleaned_web_sources = [])
    (ht : st.cleaned_twitter_sources = []) :
    Router04.rerankSources d st = []
    ∧ Router04.clusterSourcesByTheme d st = []
    ∧ Router04.assignSourceAgents d st = Router04.initAgents 3
    ∧ ∀ a ∈ Router04.assignSourceAgents d st, a.assigned_sources = [] := by
  have hcomb : Router04.combinedSources st = [] := by
    simp [Router04.combinedSources, pyMerge, hw, ht]
  have hrr : Router04.rerankSources d st = [] := by
    simp [Router04.rerankSources, Router04.filteredSources, hcomb, pySortDesc,
      List.insertionSort]
  have hbt : Router04.buildThemes d (Router04.rerankSources d st) = [] := by
    simp [Router04.buildThemes, hrr, hd.nil_eq]
  have hcl : Router04.clusterSourcesByTheme d st = [] := by
    simp [Router04.clusterSourcesByTheme, hbt, Router04.consolidateThemes, pySortDesc,
      List.insertionSort, Router04.consolidateLoop]
  have hassign : Router04.assignSourceAgents d st = Router04.initAgents 3 := by
    rw [Router04.assignSourceAgents, hcl]
    rfl
  refine ⟨hrr, hcl, hassign, ?_⟩
  intro a ha
  rw [hassign, show Router04.initAgents 3 =
      [{ agent_id := "agent_1", assigned_sources := [], source_types := [], priority := 1 },
       { agent_id := "agent_2", assigned_sources := [], source_types := [], priority := 2 },
       { agent_id := "agent_3", assigned_sources := [], source_types := [], priority := 3 }]
    from by decide] at ha
  simp only [List.mem_cons, List.not_mem_nil, or_false] at ha
  rcases ha with rfl | rfl | rfl <;> rfl

/-- Witness for C8 at the canonical enumeration and the empty router. -/
theorem claim8_witness :
    IsPySetEnum pyDedup
    ∧ Router04.emptyRouter.cleaned_web_sources = []
    ∧ Router04.emptyRouter.cleaned_twitter_sources = []
    ∧ Router04.rerankSources pyDedup Router04.emptyRouter = []
    ∧ Router04.clusterSourcesByTheme pyDedup Router04.emptyRouter = [] :=
  ⟨isPySetEnum_pyDedup, rfl, rfl,
    (claim8_amended pyDedup isPySetEnum_pyDedup Router04.emptyRouter rfl rfl).1,
    (claim8_amended pyDedup isPySetEnum_pyDedup Router04.emptyRouter rfl rfl).2.1⟩

/-! ## Claim C3: determinism of rerank -/

/-- Counterexample to claim C3 as stated: two valid set enumerations (two
process runs differing only in the string hash seed) produce differently
ordered rerank outputs on the same input, because `list(set(keywords))[:10]`
drops a different eleventh keyword and changes the diversity score. -/
theorem claim3_counterexample :
    ¬ ∀ (d1 d2 : List String → List String), IsPySetEnum d1 → IsPySetEnum d2 →
        ∀ st : Router04,
          pyKeys (Router04.rerankSources d1 st) = pyKeys (Router04.rerankSources d2 st) := by
  intro h
  exact absurd
    (h pyDedup pyDedupRev isPySetEnum_pyDedup isPySetEnum_pyDedupRev
      Router04.scenarioHashRouter)
    (by decide)

theorem IsPySetEnum.length_eq {d : List String → List String} (hd : IsPySetEnum d)
    (l : List String) : (d l).length = l.dedup.length :=
  List.Perm.length_eq <| (List.perm_ext_iff_of_nodup (hd l).1 l.nodup_dedup).mpr
    (fun a => by rw [(hd l).2 a, List.mem_dedup])

theorem IsPySetEnum.take_toFinset {d : List String → List String} (hd : IsPySetEnum d)
    (l : List String) (hlen : l.dedup.length ≤ 10) :
    (((d l).take 10).map pyLower).toFinset = (l.map pyLower).toFinset := by
  rw [List.take_of_length_le (by rw [hd.length_eq l]; exact hlen)]
  ext a
  simp only [List.mem_toFinset, List.mem_map]
  constructor
  · rintro ⟨w, hw, rfl⟩
    exact ⟨w, ((hd l).2 w).mp hw, rfl⟩
  · rintro ⟨w, hw, rfl⟩
    exact ⟨w, ((hd l).2 w).mpr hw, rfl⟩

theorem Router04.sourceScore_indep {d1 d2 : List String → List String}
    (hd1 : IsPySetEnum d1) (hd2 : IsPySetEnum d2) (query : String) (s : CleanedSource)
    (hlen : (Router04.keywordPool s).dedup.length ≤ 10) :
    Router04.sourceScore d1 query s = Router04.sourceScore d2 query s := by
  simp only [Router04.sourceScore, Router04.extractThematicKeywords]
  rw [hd1.take_toFinset _ hlen, hd2.take_toFinset _ hlen]

/-- Claim C3 amended: the rerank ordering is independent of the set
enumeration (hence identical across runs) whenever every combined source has
at most 10 distinct thematic keywords, so that the `[:10]` truncation is
order-insensitive; and the output is always sorted by weakly descending score
with the stable tie-break of the insertion order. -/
theorem claim3_amended (d1 d2 : List String → List String)
    (hd1 : IsPySetEnum d1) (hd2 : IsPySetEnum d2) (st : Router04)
    (hlen : ∀ p ∈ Router04.combinedSources st,
      ((Router04.keywordPool p.2).dedup).length ≤ 10) :
    Router04.rerankSources d1 st = Router04.rerankSources d2 st
    ∧ (Router04.rerankSources d1 st).Pairwise
        (fun a b => Router04.scoreKey d1 st b ≤ Router04.scoreKey d1 st a) := by
  have hscores : Router04.sourceScores d1 st = Router04.sourceScores d2 st := by
    rw [Router04.sourceScores, Router04.sourceScores]
    refine List.map_congr_left (fun p hp => ?_)
    have hpc : p ∈ Router04.combinedSources st := List.mem_of_mem_filter hp
    rw [Router04.sourceScore_indep hd1 hd2 st.refined_query p.2 (hlen p hpc)]
  have hkey : Router04.scoreKey d1 st = Router04.scoreKey d2 st := by
    funext p
    rw [Router04.scoreKey, Router04.scoreKey, hscores]
  refine ⟨?_, ?_⟩
  · rw [Router04.rerankSources, Router04.rerankSources, hkey]
  · rw [Router04.rerankSources]
    exact pySortDesc_sorted _ _

/-- Witness for C3 at two concrete enumerations and a router whose sources
all carry at most 10 distinct keywords. -/
theorem claim3_witness :
    IsPySetEnum pyDedup ∧ IsPySetEnum pyDedupRev
    ∧ (∀ p ∈ Router04.combinedSources Router04.scenarioDisjointRouter,
        ((Router04.keywordPool p.2).dedup).length ≤ 10)
    ∧ Router04.rerankSources pyDedup Router04.scenarioDisjointRouter
        = Router04.rerankSources pyDedupRev Router04.scenarioDisjointRouter :=
  ⟨isPySetEnum_pyDedup, isPySetEnum_pyDedupRev, by decide,
    (claim3_amended pyDedup pyDedupRev isPySetEnum_pyDedup isPySetEnum_pyDedupRev
      Router04.scenarioDisjointRouter (by decide)).1⟩

/-! ## Claim C4: idempotence of the consolidation -/

/-- Counterexample to claim C4 as stated: a reachable consolidated theme map
contains a pair of themes whose overlap ratio exceeds one half, and running
the merge procedure again on it does merge further (the theme count drops). -/
theorem claim4_counterexample :
    ¬ (Router04.clusterSourcesByTheme pyDedup Router04.scenarioChainRouter).Pairwise
        (fun a b => ¬ mkRat 1 2 < Router04.overlapRatio b.2 a.2
          ∧ ¬ mkRat 1 2 < Router04.overlapRatio a.2 b.2)
    ∧ (Router04.consolidateThemes pyDedup
          (Router04.clusterSourcesByTheme pyDedup Router04.scenarioChainRouter)).length
      < (Router04.clusterSourcesByTheme pyDedup Router04.scenarioChainRouter).length := by
  refine ⟨by decide, by decide⟩

theorem Router04.consolidateLoop_no_overlap (d : List String → List String)
    (themes : List (String × List String))
    (hno : ∀ a ∈ themes, ∀ b ∈ themes, a.1 ≠ b.1 →
      ¬ mkRat 1 2 < Router04.overlapRatio b.2 a.2) :
    ∀ (rest : List (String × List String)) (processed : List String),
      (∀ p ∈ rest, p ∈ themes) →
      (rest.map Prod.fst).Nodup →
      (∀ p ∈ rest, ¬ p.1 ∈ processed) →
      Router04.consolidateLoop d themes rest processed = rest := by
  intro rest
  induction rest with
  | nil => intro processed _ _ _; rfl
  | cons p ps ih =>
    rintro processed hsub hnodup hproc
    obtain ⟨theme, sources⟩ := p
    have hov : Router04.overlappingThemes themes processed theme sources = [] := by
      rw [Router04.overlappingThemes, List.map_eq_nil_iff, List.filter_eq_nil_iff]
      intro t ht
      simp only [decide_eq_true_eq, not_and]
      intro hne _
      exact hno ⟨theme, sources⟩ (hsub _ (List.mem_cons_self _ _)) t ht
        (fun he => hne (Eq.symm he))
    rw [Router04.consolidateLoop,
      if_neg (hproc ⟨theme, sources⟩ (List.mem_cons_self _ _)), if_pos hov, hov,
      List.append_nil]
    have hkey : ∀ q ∈ ps, ¬ q.1 ∈ processed ++ [theme] := by
      intro q hq
      rw [List.mem_append, List.mem_singleton]
      rintro (h | h)
      · exact hproc q (List.mem_cons_of_mem _ hq) h
      · rcases List.nodup_cons.mp hnodup with ⟨hth, _⟩
        exact hth (h ▸ List.mem_map.mpr ⟨q, hq, rfl⟩)
    rw [ih (processed ++ [theme]) (fun q hq => hsub q (List.mem_cons_of_mem _ hq))
      (List.nodup_cons.mp hnodup).2 hkey]

/-- Claim C4 amended: the consolidation performs no merge on a theme map with
distinct keys in which no theme overlaps another by more than half (it merely
re-sorts it by descending size); in general, however, a consolidated output
can contain a pair overlapping by more than half, and a second pass then
merges further (see the counterexample). -/
theorem claim4_amended (d : List String → List String)
    (themes : List (String × List String))
    (hkeys : (themes.map Prod.fst).Nodup)
    (hno : themes.Pairwise (fun a b => ¬ mkRat 1 2 < Router04.overlapRatio b.2 a.2
      ∧ ¬ mkRat 1 2 < Router04.overlapRatio a.2 b.2)) :
    Router04.consolidateThemes d themes
      = pySortDesc (fun t => mkRat t.2.length 1) themes := by
  have hforall := hno.forall (fun a b h => ⟨h.2, h.1⟩)
  have hno2 : ∀ a ∈ themes, ∀ b ∈ themes, a.1 ≠ b.1 →
      ¬ mkRat 1 2 < Router04.overlapRatio b.2 a.2 := by
    intro a ha b hb hne
    exact (hforall ha hb (fun he => hne (congrArg Prod.fst he))).1
  have hperm2 : ((pySortDesc (fun t : String × List String => mkRat t.2.length 1) themes).map
      Prod.fst).Perm (themes.map Prod.fst) :=
    (pySortDesc_perm _ themes).map Prod.fst
  have hn := hperm2.nodup_iff.mpr hkeys
  rw [Router04.consolidateThemes]
  exact Router04.consolidateLoop_no_overlap d themes hno2 _ []
    (fun p hp => (pySortDesc_perm _ themes).mem_iff.mp hp) hn
    (fun p _ h => List.not_mem_nil p.1 h)

/-- Witness for C4 at a two-theme map whose overlap ratio is exactly one half
(not merged). -/
theorem claim4_witness :
    ((([("ka", ["x", "y"]), ("kb", ["y", "z"])] :
        List (String × List String)).map Prod.fst).Nodup
      ∧ ([("ka", ["x", "y"]), ("kb", ["y", "z"])] :
          List (String × List String)).Pairwise
          (fun a b => ¬ mkRat 1 2 < Router04.overlapRatio b.2 a.2
            ∧ ¬ mkRat 1 2 < Router04.overlapRatio a.2 b.2))
    ∧ Router04.consolidateThemes pyDedup [("ka", ["x", "y"]), ("kb", ["y", "z"])]
        = pySortDesc (fun t => mkRat t.2.length 1) [("ka", ["x", "y"]), ("kb", ["y", "z"])] :=
  ⟨⟨by decide, by decide⟩,
    claim4_amended pyDedup [("ka", ["x", "y"]), ("kb", ["y", "z"])] (by decide) (by decide)⟩


/-! ## Claim C2: the agent assignment -/

/-- Counterexample to claim C2 as stated: two consolidated themes that share
source A but overlap by only half survive consolidation separately, and the
assignment hands them to two different agents, so A is assigned to both
`agent_1` and `agent_2`. -/
theorem claim2_counterexample :
    ¬ (Router04.assignSourceAgents pyDedup Router04.scenarioOverlapRouter).Pairwise
        (fun a b => ∀ s ∈ a.assigned_sources, ¬ s ∈ b.assigned_sources)
    ∧ (Router04.assignSourceAgents pyDedup Router04.scenarioOverlapRouter).map
        (fun a => (a.agent_id, a.assigned_sources))
      = [("agent_1", ["srcA", "srcB"]), ("agent_2", ["srcA", "srcC"]), ("agent_3", [])] := by
  refine ⟨by decide, by decide⟩

theorem Router04.recordSourceType_fields (reranked : List (String × CleanedSource))
    (ag : RouterSourceAgent) (source_id : String) :
    (Router04.recordSourceType reranked ag source_id).assigned_sources = ag.assigned_sources
    ∧ (Router04.recordSourceType reranked ag source_id).agent_id = ag.agent_id := by
  rw [Router04.recordSourceType]
  rcases pyLookup source_id reranked with _ | s
  · exact ⟨rfl, rfl⟩
  · dsimp only
    split
    · exact ⟨rfl, rfl⟩
    · exact ⟨rfl, rfl⟩

theorem Router04.foldl_recordSourceType_fields (reranked : List (String × CleanedSource)) :
    ∀ (l : List String) (ag : RouterSourceAgent),
      (l.foldl (Router04.recordSourceType reranked) ag).assigned_sources = ag.assigned_sources
      ∧ (l.foldl (Router04.recordSourceType reranked) ag).agent_id = ag.agent_id := by
  intro l
  induction l with
  | nil => intro ag; exact ⟨rfl, rfl⟩
  | cons x xs ih =>
    intro ag
    rw [List.foldl_cons]
    exact ⟨(ih _).1.trans (Router04.recordSourceType_fields reranked ag x).1,
      (ih _).2.trans (Router04.recordSourceType_fields reranked ag x).2⟩

theorem Router04.addThemeSources_fields (reranked : List (String × CleanedSource))
    (sources : List String) (a : RouterSourceAgent) :
    (Router04.addThemeSources reranked sources a).assigned_sources
      = a.assigned_sources ++ sources
    ∧ (Router04.addThemeSources reranked sources a).agent_id = a.agent_id := by
  rw [Router04.addThemeSources]
  exact ⟨(Router04.foldl_recordSourceType_fields reranked sources _).1,
    (Router04.foldl_recordSourceType_fields reranked sources _).2⟩

theorem Router04.flatten_map_update (target : String)
    (g : RouterSourceAgent → RouterSourceAgent) (xs : List String)
    (hga : ∀ a, (g a).assigned_sources = a.assigned_sources ++ xs) :
    ∀ agents : List RouterSourceAgent,
      (agents.map (fun a => a.agent_id)).Nodup →
      target ∈ agents.map (fun a => a.agent_id) →
      ((agents.map (fun a => if a.agent_id = target then g a else a)).map
          (fun a => a.assigned_sources)).flatten.Perm
        ((agents.map (fun a => a.assigned_sources)).flatten ++ xs) := by
  intro agents
  induction agents with
  | nil => intro _ hmem; simp at hmem
  | cons a as ih =>
    intro hids hmem
    rcases List.nodup_cons.mp hids with ⟨hna, hnas⟩
    by_cases ha : a.agent_id = target
    · have hrest : as.map (fun b => if b.agent_id = target then g b else b) = as := by
        rw [List.map_congr_left (fun b hb => if_neg
          (fun he : b.agent_id = target =>
            hna (List.mem_map.mpr ⟨b, hb, he.trans ha.symm⟩)))]
        exact List.map_id as
      simp only [List.map_cons, if_pos ha, hrest, List.flatten_cons]
      rw [hga a, List.append_assoc, List.append_assoc]
      exact List.Perm.append_left a.assigned_sources List.perm_append_comm
    · have hmem2 : target ∈ as.map (fun a => a.agent_id) := by
        rcases List.mem_cons.mp hmem with h | h
        · exact absurd h.symm ha
        · exact h
      simp only [List.map_cons, if_neg ha, List.flatten_cons]
      rw [List.append_assoc]
      exact List.Perm.append_left a.assigned_sources (ih hnas hmem2)

theorem Router04.assignStep_spec (reranked : List (String × CleanedSource))
    (agents : List RouterSourceAgent) (sizes : List (String × ℕ)) (c : String × List String)
    (hids : (agents.map (fun a => a.agent_id)).Nodup)
    (hkeys : sizes.map Prod.fst = agents.map (fun a => a.agent_id))
    (hne : sizes ≠ []) :
    ((Router04.assignStep reranked (agents, sizes) c).1.map
        (fun a => a.assigned_sources)).flatten.Perm
      ((agents.map (fun a => a.assigned_sources)).flatten ++ c.2)
    ∧ (Router04.assignStep reranked (agents, sizes) c).1.map (fun a => a.agent_id)
      = agents.map (fun a => a.agent_id)
    ∧ (Router04.assignStep reranked (agents, sizes) c).2.map Prod.fst = sizes.map Prod.fst := by
  have hmem : (pyArgminFirst sizes).1 ∈ agents.map (fun a => a.agent_id) := by
    rw [← hkeys]
    exact List.mem_map.mpr ⟨pyArgminFirst sizes, pyArgminFirst_mem sizes hne, rfl⟩
  refine ⟨?_, ?_, ?_⟩
  · exact Router04.flatten_map_update (pyArgminFirst sizes).1
      (Router04.addThemeSources reranked c.2) c.2
      (fun a => (Router04.addThemeSources_fields reranked c.2 a).1) agents hids hmem
  · rw [Router04.assignStep]
    dsimp only
    rw [List.map_map]
    refine List.map_congr_left (fun a _ => ?_)
    by_cases ha : a.agent_id = (pyArgminFirst sizes).1
    · simp only [Function.comp_apply, if_pos ha]
      exact (Router04.addThemeSources_fields reranked c.2 a).2
    · simp only [Function.comp_apply, if_neg ha]
  · rw [Router04.assignStep]
    dsimp only
    rw [List.map_map]
    refine List.map_congr_left (fun p _ => ?_)
    by_cases hp : p.1 = (pyArgminFirst sizes).1
    · simp only [Function.comp_apply, if_pos hp]
    · simp only [Function.comp_apply, if_neg hp]

theorem Router04.assignFold_flatten (reranked : List (String × CleanedSource)) :
    ∀ (clusters : List (String × List String)) (agents : List RouterSourceAgent)
      (sizes : List (String × ℕ)),
      (agents.map (fun a => a.agent_id)).Nodup →
      sizes.map Prod.fst = agents.map (fun a => a.agent_id) →
      sizes ≠ [] →
      ((clusters.foldl (Router04.assignStep reranked) (agents, sizes)).1.map
          (fun a => a.assigned_sources)).flatten.Perm
        ((agents.map (fun a => a.assigned_sources)).flatten
          ++ (clusters.map Prod.snd).flatten) := by
  intro clusters
  induction clusters with
  | nil =>
    intro agents sizes _ _ _
    simp
  | cons c cs ih =>
    intro agents sizes hids hkeys hne
    rw [List.foldl_cons]
    obtain ⟨h1, h2, h3⟩ := Router04.assignStep_spec reranked agents sizes c hids hkeys hne
    rcases hstep : Router04.assignStep reranked (agents, sizes) c with ⟨agents2, sizes2⟩
    rw [hstep] at h1 h2 h3
    have hids2 : (agents2.map (fun a => a.agent_id)).Nodup := by rw [h2]; exact hids
    have hkeys2 : sizes2.map Prod.fst = agents2.map (fun a => a.agent_id) := by
      rw [h3, hkeys, h2]
    have hne2 : sizes2 ≠ [] := by
      intro h0
      rw [h0] at h3
      exact hne (List.map_eq_nil_iff.mp h3.symm)
    have hperm := ih agents2 sizes2 hids2 hkeys2 hne2
    simp only [List.map_cons, List.flatten_cons]
    rw [← List.append_assoc]
    exact hperm.trans (h1.append_right ((cs.map Prod.snd).flatten))

theorem Router04.initAgents_ids_nodup :
    ∀ n < 16, ((Router04.initAgents n).map (fun a => a.agent_id)).Nodup := by decide

theorem Router04.agentCount_lt (theme_count : ℕ) : Router04.agentCount theme_count < 16 := by
  rw [Router04.agentCount]
  omega

theorem Router04.agentCount_pos (theme_count : ℕ) : 0 < Router04.agentCount theme_count := by
  rw [Router04.agentCount]
  omega

theorem Router04.initAgents_assigned_nil (n : ℕ) :
    ((Router04.initAgents n).map (fun a => a.assigned_sources)).flatten = [] := by
  rw [List.flatten_eq_nil_iff]
  intro l hl
  rw [Router04.initAgents, List.map_map] at hl
  rcases List.mem_map.mp hl with ⟨i, _, rfl⟩
  rfl

theorem Router04.assignFromClusters_flatten (reranked : List (String × CleanedSource))
    (clusters : List (String × List String)) :
    ((Router04.assignFromClusters reranked clusters).map
        (fun a => a.assigned_sources)).flatten.Perm
      ((clusters.map Prod.snd).flatten) := by
  rw [Router04.assignFromClusters]
  have hids : ((Router04.initAgents (Router04.agentCount clusters.length)).map
      (fun a => a.agent_id)).Nodup :=
    Router04.initAgents_ids_nodup _ (Router04.agentCount_lt clusters.length)
  have hkeys : (((Router04.initAgents (Router04.agentCount clusters.length)).map
        (fun a => (a.agent_id, 0))).map Prod.fst)
      = (Router04.initAgents (Router04.agentCount clusters.length)).map
        (fun a => a.agent_id) := by
    rw [List.map_map]
    rfl
  have hne : ((Router04.initAgents (Router04.agentCount clusters.length)).map
      (fun a => (a.agent_id, 0))) ≠ [] := by
    intro h0
    have h1 : Router04.initAgents (Router04.agentCount clusters.length) = [] :=
      List.map_eq_nil_iff.mp h0
    have hlen := congrArg List.length h1
    simp only [Router04.initAgents, List.length_map, List.length_range,
      List.length_nil] at hlen
    have hpos := Router04.agentCount_pos clusters.length
    omega
  have h0 := Router04.assignFold_flatten reranked
    (pySortDesc (fun t => mkRat t.2.length 1) clusters) _ _ hids hkeys hne
  have hsorted : (((pySortDesc (fun t : String × List String => mkRat t.2.length 1)
      clusters).map Prod.snd).flatten).Perm ((clusters.map Prod.snd).flatten) :=
    ((pySortDesc_perm _ clusters).map Prod.snd).flatten
  refine h0.trans ?_
  rw [Router04.initAgents_assigned_nil, List.nil_append]
  exact hsorted

/-- Claim C2 amended: the union of the agents' assigned sources equals the
union of the consolidated theme source sets (each theme is handed wholly to
exactly one agent), and when the consolidated themes are duplicate-free and
pairwise disjoint the assignment is a partition: no source appears twice in
one agent's list nor in two different agents' lists.  In general a source
lying in several surviving themes is assigned once per theme, so the
no-duplication half of the original claim fails (see the counterexample). -/
theorem claim2_amended (d : List String → List String) (st : Router04) :
    (∀ sid : String,
      (∃ a ∈ Router04.assignSourceAgents d st, sid ∈ a.assigned_sources)
        ↔ ∃ c ∈ Router04.clusterSourcesByTheme d st, sid ∈ c.2)
    ∧ ((∀ c ∈ Router04.clusterSourcesByTheme d st, c.2.Nodup)
        ∧ (Router04.clusterSourcesByTheme d st).Pairwise
            (fun c1 c2 => ∀ s ∈ c1.2, ¬ s ∈ c2.2) →
      (∀ a ∈ Router04.assignSourceAgents d st, a.assigned_sources.Nodup)
        ∧ (Router04.assignSourceAgents d st).Pairwise
            (fun a b => ∀ s ∈ a.assigned_sources, ¬ s ∈ b.assigned_sources)) := by
  have hperm : (((Router04.assignSourceAgents d st).map
      (fun a => a.assigned_sources)).flatten).Perm
      (((Router04.clusterSourcesByTheme d st).map Prod.snd).flatten) :=
    Router04.assignFromClusters_flatten (Router04.rerankSources d st)
      (Router04.clusterSourcesByTheme d st)
  constructor
  · intro sid
    constructor
    · rintro ⟨a, ha, hs⟩
      have hin : sid ∈ ((Router04.assignSourceAgents d st).map
          (fun a => a.assigned_sources)).flatten :=
        List.mem_flatten.mpr ⟨a.assigned_sources, List.mem_map.mpr ⟨a, ha, rfl⟩, hs⟩
      rcases List.mem_flatten.mp (hperm.mem_iff.mp hin) with ⟨l, hl, hsl⟩
      rcases List.mem_map.mp hl with ⟨c, hc, rfl⟩
      exact ⟨c, hc, hsl⟩
    · rintro ⟨c, hc, hs⟩
      have hin : sid ∈ ((Router04.clusterSourcesByTheme d st).map Prod.snd).flatten :=
        List.mem_flatten.mpr ⟨c.2, List.mem_map.mpr ⟨c, hc, rfl⟩, hs⟩
      rcases List.mem_flatten.mp (hperm.mem_iff.mpr hin) with ⟨l, hl, hsl⟩
      rcases List.mem_map.mp hl with ⟨a, ha, rfl⟩
      exact ⟨a, ha, hsl⟩
  · rintro ⟨hnd, hdisj⟩
    have hflat : (((Router04.clusterSourcesByTheme d st).map Prod.snd).flatten).Nodup := by
      rw [List.nodup_flatten]
      refine ⟨?_, ?_⟩
      · intro l hl
        rcases List.mem_map.mp hl with ⟨c, hc, rfl⟩
        exact hnd c hc
      · rw [List.pairwise_map]
        exact hdisj.imp (fun h a ha hb => h a ha hb)
    have hagents := (List.nodup_flatten).mp (hperm.nodup_iff.mpr hflat)
    obtain ⟨h1, h2⟩ := hagents
    refine ⟨?_, ?_⟩
    · intro a ha
      exact h1 a.assigned_sources (List.mem_map.mpr ⟨a, ha, rfl⟩)
    · exact (List.pairwise_map.mp h2).imp (fun h s hs1 hs2 => h hs1 hs2)

/-- Witness for C2 at a router whose consolidated themes are pairwise
disjoint: the hypotheses of the partition half hold and the assignment is a
partition. -/
theorem claim2_witness :
    ((∀ c ∈ Router04.clusterSourcesByTheme pyDedup Router04.scenarioDisjointRouter, c.2.Nodup)
      ∧ (Router04.clusterSourcesByTheme pyDedup Router04.scenarioDisjointRouter).Pairwise
          (fun c1 c2 => ∀ s ∈ c1.2, ¬ s ∈ c2.2))
    ∧ ((∀ a ∈ Router04.assignSourceAgents pyDedup Router04.scenarioDisjointRouter,
          a.assigned_sources.Nodup)
      ∧ (Router04.assignSourceAgents pyDedup Router04.scenarioDisjointRouter).Pairwise
          (fun a b => ∀ s ∈ a.assigned_sources, ¬ s ∈ b.assigned_sources)) :=
  ⟨by decide,
    (claim2_amended pyDedup Router04.scenarioDisjointRouter).2 (by decide)⟩

end Vizier
